import Mathlib

/-!
Verification of the signal/dispatch layer of the ToUI repository
(`toui/_signals.py`).  The Python module is shallowly embedded:

* JSON-decodable Python values are `JVal`; a raw inbound text is modelled
  by its parse result, `RawText := Option JVal` (`none` = text that
  `json.loads` rejects).
* Python exceptions relevant to this module become `PyError`; fallible
  code runs in `Except PyError`.
* Transport activity (websocket sends/receives, evaluator calls) is
  counted in a `Trace`.
* `Signal.__call__`'s inner `new_func` is `wrapperRun`; `Signal._call_method`
  is `call_method`; `Signal._send` is `sendRun`; `File.__iter__` is
  `fileIterWs` (persistent-channel branch) / `fileIterDirect`
  (direct-evaluator branch, fuel-indexed because the source loop can
  spin forever re-parsing the same text).
-/

/-- Values produced by `json.loads` (and Python values built from them). -/
inductive JVal where
  | null
  | jbool (b : Bool)
  | jnum (n : Int)
  | jstr (s : String)
  | jarr (xs : List JVal)
  | jobj (fields : List (String × JVal))

/-- Raw message text, modelled by its JSON parse result
(`none` represents text `json.loads` raises on). -/
abbrev RawText := Option JVal

/-- Python exceptions that the embedded code can raise. -/
inductive PyError where
  | keyError
  | typeError
  | valueError
  | jsonDecodeError
  | unboundLocal
deriving DecidableEq

/-- Counts of transport activity performed during a call. -/
structure Trace where
  sends : Nat
  receives : Nat
  evalCalls : Nat
deriving DecidableEq

def Trace.empty : Trace := ⟨0, 0, 0⟩

/-- `json.loads` on a raw text: unparseable text raises. -/
def json_loads (t : RawText) : Except PyError JVal :=
  match t with
  | none => .error .jsonDecodeError
  | some v => .ok v

/-- Python subscription `v[k]` with a string key: `KeyError` when the key is
missing from a dict, `TypeError` when `v` is not a dict. -/
def getItem (v : JVal) (k : String) : Except PyError JVal :=
  match v with
  | .jobj fields =>
    match fields.lookup k with
    | some x => .ok x
    | none => .error .keyError
  | _ => .error .typeError

/-- Python truthiness of a decoded value (`if signal:` in `_call_method`). -/
def pyTruthy : JVal → Bool
  | .null => false
  | .jbool b => b
  | .jnum n => n != 0
  | .jstr s => s != ""
  | .jarr xs => !xs.isEmpty
  | .jobj fs => !fs.isEmpty

/-- Python `x == "files"` for a decoded value `x`. -/
def isFilesTag : JVal → Bool
  | .jstr s => s == "files"
  | _ => false

/-- Python `x == True` for a decoded value `x` (`True == 1` holds in Python). -/
def pyEqTrue : JVal → Bool
  | .jbool b => b
  | .jnum n => n == 1
  | _ => false

/-- Python `bytearray` of a single element candidate (must be an int in
`0..255`; bools are ints). -/
def byteOfJVal : JVal → Except PyError Nat
  | .jnum n => if 0 ≤ n ∧ n < 256 then pure n.toNat else .error .valueError
  | .jbool b => pure (if b then 1 else 0)
  | _ => .error .typeError

/-- Python `bytearray(data)`: an iterable of ints gives those bytes, an int
`n` gives `n` zero bytes, and a `str` without an encoding raises
`TypeError` (as do `None` and dicts). -/
def bytearrayOf : JVal → Except PyError (List Nat)
  | .jarr xs => xs.mapM byteOfJVal
  | .jnum n => if 0 ≤ n then pure (List.replicate n.toNat 0) else .error .valueError
  | .jbool b => pure (List.replicate (if b then 1 else 0) 0)
  | _ => .error .typeError

/-- Class attribute `Signal.included_private_methods` from the source. -/
def Signal.included_private_methods : List String := ["_open_another_page"]

/-- Class attribute `Signal.no_return_functions` from the source. -/
def Signal.no_return_functions : List String := []

/-- A `File` handle as built by `File.__init__`: the wire descriptor fields,
the remote id, whether a websocket was attached, and the mutable
`is_binary` flag (defaults to `False`). -/
structure FileH where
  fileDict : JVal
  fname : JVal
  fsize : JVal
  ftype : JVal
  lastModified : JVal
  fileId : JVal
  hasWs : Bool
  isBinary : Bool

/-- Building one `File` from a wire dict: argument `file_dict['file-id']`
is evaluated first, then `__init__` reads `name`, `size`, `type`,
`last-modified`; a missing key raises `KeyError`. -/
def mkFile (hasWs : Bool) (fd : JVal) : Except PyError FileH := do
  let fid ← getItem fd "file-id"
  let n ← getItem fd "name"
  let s ← getItem fd "size"
  let t ← getItem fd "type"
  let lm ← getItem fd "last-modified"
  pure ⟨fd, n, s, t, lm, fid, hasWs, false⟩

/-- `for file_dict in data: files.append(File(...))` — iterating a non-list
raises `TypeError` at the first element (empty strings/dicts iterate to
nothing). -/
def buildFiles (hasWs : Bool) (data : JVal) : Except PyError (List FileH) :=
  match data with
  | .jarr xs => xs.mapM (mkFile hasWs)
  | .jstr s => if s = "" then pure [] else .error .typeError
  | .jobj fs => if fs.isEmpty then pure [] else .error .typeError
  | _ => .error .typeError

/-- The Python value a send/dispatch returns to its caller: `None`, a plain
decoded value, or a list of `File` handles. -/
inductive PyRet where
  | pynone
  | pyjson (v : JVal)
  | pyfiles (fs : List FileH)

/-- `return data_dict['data']`: JSON `null` decodes to Python `None`. -/
def retOfJVal : JVal → PyRet
  | .null => .pynone
  | .jbool b => .pyjson (.jbool b)
  | .jnum n => .pyjson (.jnum n)
  | .jstr s => .pyjson (.jstr s)
  | .jarr xs => .pyjson (.jarr xs)
  | .jobj fs => .pyjson (.jobj fs)

/-- The collaborators `Signal._send` interacts with: truthiness of
`self.ws`, the scripted next `ws.receive()` text, the external validator
`_validate_data`, the direct evaluator's returned text, and whether
`self.return_type == "js"`. -/
structure SendEnv where
  wsPresent : Bool
  received : RawText
  validate : RawText → Bool
  evalOut : RawText
  returnTypeJs : Bool

/-- The `try:` block of `Signal._send`'s direct-evaluator branch: parse the
evaluator output; on a `"files"` tag build and return the handles (left);
otherwise hand the parsed dict to the code after the block (right).  Any
exception inside is caught by the bare `except`. -/
def directTryBody (out : RawText) : Except PyError (List FileH ⊕ JVal) := do
  let dd ← json_loads out
  let ty ← getItem dd "type"
  if isFilesTag ty then do
    let data ← getItem dd "data"
    let fs ← buildFiles false data
    pure (Sum.inl fs)
  else pure (Sum.inr dd)

/-- `Signal._send(signal)`.  Persistent branch (`self.ws` truthy): send the
serialized signal; when a remote result is expected, receive once,
validate (a rejected text is returned as `None` undecoded), then decode —
`data_dict['type']` may raise, a `"files"` tag builds handles bound to the
channel, any other tag returns `data_dict['data']`.  Direct branch: read
`signal['func']`/`signal['kwargs']`, call the evaluator, and when a remote
result is expected run the `try` block, substituting `⟨"data": None⟩` on
any exception; `data_dict['data']` after the block can still raise. -/
def sendRun (env : SendEnv) (signal : JVal) : Except PyError (PyRet × Trace) :=
  if env.wsPresent then
    if env.returnTypeJs then
      if env.validate env.received then do
        let dd ← json_loads env.received
        let ty ← getItem dd "type"
        if isFilesTag ty then do
          let data ← getItem dd "data"
          let fs ← buildFiles true data
          pure (.pyfiles fs, ⟨1, 1, 0⟩)
        else do
          let d ← getItem dd "data"
          pure (retOfJVal d, ⟨1, 1, 0⟩)
      else pure (.pynone, ⟨1, 1, 0⟩)
    else pure (.pynone, ⟨1, 0, 0⟩)
  else do
    let _f ← getItem signal "func"
    let _kw ← getItem signal "kwargs"
    if env.returnTypeJs then
      match directTryBody env.evalOut with
      | .ok (.inl fs) => pure (.pyfiles fs, ⟨0, 0, 1⟩)
      | .ok (.inr dd) => do
        let d ← getItem dd "data"
        pure (retOfJVal d, ⟨0, 0, 1⟩)
      | .error _ => pure (.pynone, ⟨0, 0, 1⟩)
    else pure (.pynone, ⟨0, 0, 1⟩)

/-- Python `name.startswith("_")`: the first character is an underscore. -/
def startswithUnderscore (name : String) : Bool :=
  match name.data with
  | [] => false
  | c :: _ => c == '_'

/-- The member filter of `Signal._call_method`: name equality with the
intercepted function, and either public or whitelisted private. -/
def eligibleBuilder (name funcName : String) : Bool :=
  name == funcName &&
    (!(startswithUnderscore name) || Signal.included_private_methods.contains name)

/-- The `inspect.getmembers` scan of `Signal._call_method`: each candidate
method is represented by its name and the value it returns when invoked
with the call context; the first eligible name match wins. -/
def lookupBuilder : List (String × JVal) → String → Option JVal
  | [], _ => none
  | (n, out) :: rest, funcName =>
    if eligibleBuilder n funcName then some out else lookupBuilder rest funcName

/-- `Signal._call_method`: find the signal-builder by name; a truthy result
is dispatched through `_send`, a falsy one (or no match) returns `None`
with no transport. -/
def call_method (env : SendEnv) (methods : List (String × JVal))
    (funcName : String) : Except PyError (PyRet × Trace) :=
  match lookupBuilder methods funcName with
  | none => .ok (.pynone, Trace.empty)
  | some out =>
    if pyTruthy out then sendRun env out else .ok (.pynone, Trace.empty)

/-- Configuration the wrapper closure reads from the decorating `Signal`
instance: the `no_return_functions` set and whether
`return_type == "js"`. -/
structure WrapCfg where
  noReturnFunctions : List String
  returnTypeJs : Bool

/-- One call of a wrapped method: the method name, the invoking object's
`_signal_mode` flag before and after the body runs (the body may mutate
it), the body's local return value (`none` = Python `None`), and the
scripted outcome of `decorator._call_method` (value plus transport
trace, or an exception). -/
structure WrapCall (V : Type) where
  funcName : String
  smBefore : Bool
  smAfter : Bool
  bodyValue : Option V
  dispatch : Except PyError (Option V × Trace)

/-- Lines 44-48 of the source: the no-return set wins, then
`return_type == "js"` selects `real_output`, else the local value. -/
def returnPolicy {V : Type} (cfg : WrapCfg) (funcName : String)
    (value realOutput : Option V) : Option V :=
  if funcName ∈ cfg.noReturnFunctions then none
  else if cfg.returnTypeJs then realOutput
  else value

/-- The `new_func` closure produced by `Signal.__call__`: `original_copy`
is assigned only under the pre-body `_signal_mode` check; after the body,
a set flag resolves the channel, builds the call context (reading
`original_copy` — an unbound read raises `UnboundLocalError`), and
dispatches; with the flag clear, `real_output` stays the local value and
no transport happens.  The return policy then runs in every case. -/
def wrapperRun {V : Type} (cfg : WrapCfg) (c : WrapCall V) :
    Except PyError (Option V × Trace) :=
  let originalCopy : Option Unit := if c.smBefore then some () else none
  let value := c.bodyValue
  if c.smAfter then
    match originalCopy with
    | none => .error .unboundLocal
    | some _ =>
      match c.dispatch with
      | .error e => .error e
      | .ok (realOutput, tr) =>
        .ok (returnPolicy cfg c.funcName value realOutput, tr)
  else .ok (returnPolicy cfg c.funcName value value, Trace.empty)

/-- A chunk yielded by `File.__iter__`: the decoded data as-is, or the
bytes of `bytearray(data)` when `is_binary` is set. -/
inductive Chunk where
  | text (v : JVal)
  | bin (bytes : List Nat)

/-- How an iteration run ended: generator returned normally, an exception
escaped, the persistent channel would block on an empty script, or the
fuel of the direct-mode loop ran out (the source loop itself never
terminates in that case). -/
inductive IterOutcome where
  | done
  | raised (e : PyError)
  | blocked
  | fuelOut

/-- Collaborators of `File.__iter__`: the scripted successive
`ws.receive()` texts, the validator, and the direct evaluator's returned
text. -/
structure FileEnv where
  msgs : List RawText
  validate : RawText → Bool
  evalOut : RawText

/-- The retrieval descriptor built at the top of `File.__iter__`. -/
def fileSignal (f : FileH) : JVal :=
  .jobj [("func", .jstr "_saveFile"), ("args", .jarr []),
         ("kwargs", .jobj [("file-id", f.fileId), ("binary", .jbool f.isBinary)])]

/-- Pre-yield work on one message: parse, read `data`, apply the
`is_binary` conversion. -/
def chunkOf (isBinary : Bool) (raw : RawText) : Except PyError Chunk := do
  let dd ← json_loads raw
  let d ← getItem dd "data"
  if isBinary then (fun bs => Chunk.bin bs) <$> bytearrayOf d
  else pure (Chunk.text d)

/-- The post-yield `data_dict['end']` read on one message. -/
def endOf (raw : RawText) : Except PyError JVal := do
  let dd ← json_loads raw
  getItem dd "end"

/-- The receive loop of `File.__iter__`'s persistent branch, over the
scripted messages: a rejected text returns (ending the generator), the
chunk is built and yielded before `end` is read, and `end == True`
breaks.  Returns the yielded chunks, the outcome, and the number of
receives performed. -/
def iterPersistentLoop (validate : RawText → Bool) (isBinary : Bool) :
    List RawText → List Chunk × IterOutcome × Nat
  | [] => ([], .blocked, 0)
  | raw :: rest =>
    if validate raw then
      match chunkOf isBinary raw with
      | .error e => ([], .raised e, 1)
      | .ok c =>
        match endOf raw with
        | .error e => ([c], .raised e, 1)
        | .ok e =>
          if pyEqTrue e then ([c], .done, 1)
          else
            let r := iterPersistentLoop validate isBinary rest
            (c :: r.1, r.2.1, r.2.2 + 1)
    else ([], .done, 1)

/-- `File.__iter__` on a handle bound to a persistent channel: one send of
the retrieval descriptor, then the receive loop. -/
def fileIterWs (env : FileEnv) (f : FileH) : List Chunk × IterOutcome × Trace :=
  let r := iterPersistentLoop env.validate f.isBinary env.msgs
  (r.1, r.2.1, ⟨1, r.2.2, 0⟩)

/-- The direct-mode loop of `File.__iter__`, fuel-indexed: every iteration
re-parses the same evaluator output `out`, yields its chunk, and only
stops if that same text's `end` flag equals `True`. -/
def directLoop (out : RawText) (isBinary : Bool) : Nat → List Chunk × IterOutcome
  | 0 => ([], .fuelOut)
  | n + 1 =>
    match chunkOf isBinary out with
    | .error e => ([], .raised e)
    | .ok c =>
      match endOf out with
      | .error e => ([c], .raised e)
      | .ok e =>
        if pyEqTrue e then ([c], .done)
        else
          let r := directLoop out isBinary n
          (c :: r.1, r.2)

/-- `File.__iter__` on a handle with no channel: exactly one evaluator
call, then the re-parsing loop on its single returned text. -/
def fileIterDirect (env : FileEnv) (f : FileH) (fuel : Nat) :
    List Chunk × IterOutcome × Trace :=
  let r := directLoop env.evalOut f.isBinary fuel
  (r.1, r.2, ⟨0, 0, 1⟩)

/-- `File.__iter__` branch selection: `if self._ws:` chooses the
persistent-channel loop, otherwise the direct-evaluator loop. -/
def fileIter (env : FileEnv) (f : FileH) (fuel : Nat) :
    List Chunk × IterOutcome × Trace :=
  if f.hasWs then fileIterWs env f else fileIterDirect env f fuel

/-- Scripted chunk message `⦃"data": "a", "end": false⦄`. -/
def msgA : RawText := some (.jobj [("data", .jstr "a"), ("end", .jbool false)])

/-- Scripted chunk message `⦃"data": "b", "end": true⦄`. -/
def msgB : RawText := some (.jobj [("data", .jstr "b"), ("end", .jbool true)])

/-- Scripted file-iteration environment: the two chunk messages above on a
persistent channel, with a validator that accepts everything. -/
def chunkEnv : FileEnv := ⟨[msgA, msgB], fun _ => true, none⟩

/-- A `File` handle bound to a persistent channel, `is_binary = False`. -/
def wsTextFile : FileH :=
  ⟨.jobj [], .jstr "f", .jnum 1, .jstr "text", .jnum 0, .jstr "id1", true, false⟩

/-- The same persistent-channel handle with `is_binary = True`. -/
def wsBinFile : FileH :=
  ⟨.jobj [], .jstr "f", .jnum 1, .jstr "text", .jnum 0, .jstr "id1", true, true⟩

/-- A `File` handle with no channel (direct-evaluator mode),
`is_binary = False`. -/
def directFile : FileH :=
  ⟨.jobj [], .jstr "f", .jnum 1, .jstr "text", .jnum 0, .jstr "id1", false, false⟩

/-- Direct-mode environment whose single evaluator output is a chunk with
`end: false`. -/
def directSpinEnv : FileEnv :=
  ⟨[], fun _ => true, some (.jobj [("data", .jstr "x"), ("end", .jbool false)])⟩

/-- Persistent-channel send environment whose received message lacks the
`type` key, with an always-accepting validator. -/
def noTypeEnv : SendEnv :=
  ⟨true, some (.jobj [("data", .jstr "x")]), fun _ => true, none, true⟩

/-- Claim C1: for every wrapped method call that completes (the
`_signal_mode` flag has the same value `b` before and after the body, so
`real_output` is the dispatcher's result when `b` is set and the local
value otherwise), the wrapper returns `None` when the method name is in
the no-return set, else the remote result `real_output` when
`return_type == "js"`, else the local value `v`, ignoring
`real_output`. -/
theorem wrapper_return_policy {V : Type} (cfg : WrapCfg) (n : String)
    (v ro : Option V) (tr : Trace) (b : Bool) :
    wrapperRun cfg ⟨n, b, b, v, .ok (ro, tr)⟩ =
      .ok ((if n ∈ cfg.noReturnFunctions then none
            else if cfg.returnTypeJs then (if b then ro else v) else v),
           if b then tr else Trace.empty) := by
  cases b <;> simp [wrapperRun, returnPolicy]

/-- Claim C2: with the invoking object's `_signal_mode` flag disabled
throughout the call, a method wrapped with the interceptor's actual
`no_return_functions` set (empty in the source) returns exactly the body's
local value for every return policy and every scripted dispatcher, and
performs no send, receive, or evaluator call. -/
theorem wrapper_disabled_identity {V : Type} (rtjs : Bool) (n : String)
    (v : Option V) (d : Except PyError (Option V × Trace)) :
    wrapperRun ⟨Signal.no_return_functions, rtjs⟩ ⟨n, false, false, v, d⟩ =
      .ok (v, Trace.empty) := by
  cases rtjs <;> simp [wrapperRun, returnPolicy, Signal.no_return_functions]

/-- Claim C9: `original_copy` is assigned only under the pre-body
`_signal_mode` check but read under the post-body check, so a body that
switches the flag from disabled to enabled makes the wrapper raise
`UnboundLocalError`; when the body leaves the flag unchanged (and the
dispatcher completes), the call completes normally for either flag
value. -/
theorem wrapper_unbound_original_copy {V : Type} (cfg : WrapCfg) (n : String)
    (v : Option V) (d : Except PyError (Option V × Trace)) :
    wrapperRun cfg ⟨n, false, true, v, d⟩ = .error .unboundLocal ∧
    ∀ (b : Bool) (p : Option V × Trace), ∃ r,
      wrapperRun cfg ⟨n, b, b, v, .ok p⟩ = .ok r := by
  refine ⟨rfl, ?_⟩
  intro b p
  obtain ⟨ro, tr⟩ := p
  cases b
  · exact ⟨_, rfl⟩
  · exact ⟨_, rfl⟩

/-- Claim C3: when the signal-builder found by name returns a falsy value,
`_call_method` performs no send, no receive, and no evaluator call, and
returns `None`. -/
theorem dispatch_falsy_noop (env : SendEnv) (methods : List (String × JVal))
    (funcName : String) (out : JVal)
    (hfind : lookupBuilder methods funcName = some out)
    (hfalsy : pyTruthy out = false) :
    call_method env methods funcName = .ok (.pynone, Trace.empty) := by
  simp [call_method, hfind, hfalsy]

/-- Witness for claim C3: a builder named like the intercepted method that
returns `None` (falsy) yields a transport-free `None` dispatch. -/
theorem dispatch_falsy_noop_witness :
    call_method ⟨true, none, fun _ => true, none, true⟩ [("m", JVal.null)] "m" =
      .ok (.pynone, Trace.empty) :=
  dispatch_falsy_noop ⟨true, none, fun _ => true, none, true⟩
    [("m", JVal.null)] "m" JVal.null rfl rfl

/-- Claim C5: on the persistent channel with the remote return policy, a
received text the validator rejects makes `_send` return `None` with no
exception, after exactly one send and one receive, for every signal and
every received text — the rejected text is never decoded (the result does
not depend on its parse, and even an unparseable text raises nothing). -/
theorem send_validator_reject (env : SendEnv) (signal : JVal)
    (hws : env.wsPresent = true) (hjs : env.returnTypeJs = true)
    (hval : env.validate env.received = false) :
    sendRun env signal = .ok (.pynone, ⟨1, 1, 0⟩) := by
  simp [sendRun, hws, hjs, hval, pure, Except.pure]

/-- Witness for claim C5: a rejected (here even unparseable) received text
on a persistent channel produces `None` without raising. -/
theorem send_validator_reject_witness :
    sendRun ⟨true, none, fun _ => false, none, true⟩ JVal.null =
      .ok (.pynone, ⟨1, 1, 0⟩) :=
  send_validator_reject ⟨true, none, fun _ => false, none, true⟩ JVal.null
    rfl rfl rfl

/-- Claim C6: on the direct-evaluator branch with the remote return policy,
an evaluator output that `json.loads` cannot parse makes `_send` return
the `data` field of the substituted default `⦃"data": None⦄` — i.e.
`None` — after one evaluator call, with no decode exception escaping,
for every well-formed outbound descriptor. -/
theorem send_direct_decode_failure (validate : RawText → Bool) (recv : RawText)
    (f : String) (args : List JVal) (kw : JVal) :
    sendRun ⟨false, recv, validate, none, true⟩
      (.jobj [("func", .jstr f), ("args", .jarr args), ("kwargs", kw)]) =
      .ok (.pynone, ⟨0, 0, 1⟩) := rfl

/-- Counterexample to claim C7: a validated persistent-channel response
without a `type` key does not make the caller "receive nothing" — the
`data_dict['type']` subscription raises a `KeyError` that escapes. -/
theorem send_missing_type_raises :
    sendRun noTypeEnv (.jobj []) = .error .keyError := rfl

/-- Claim C7 as amended: for a validated ordinary response on the
persistent channel, an absent `type` key raises a `KeyError` that
propagates; a present `type` equal to `"files"` yields one handle per
file entry; and any other present `type` value — recognized or not —
returns the response's `data` field (there is no discard on an
unrecognized tag). -/
theorem send_type_handling (validate : RawText → Bool) (t d : JVal)
    (fds : List JVal) (fs : List FileH) (sig : JVal) :
    (validate (some (.jobj [("type", t), ("data", d)])) = true →
      isFilesTag t = false →
      sendRun ⟨true, some (.jobj [("type", t), ("data", d)]), validate, none, true⟩ sig =
        .ok (retOfJVal d, ⟨1, 1, 0⟩)) ∧
    (validate (some (.jobj [("data", d)])) = true →
      sendRun ⟨true, some (.jobj [("data", d)]), validate, none, true⟩ sig =
        .error .keyError) ∧
    (validate (some (.jobj [("type", .jstr "files"), ("data", .jarr fds)])) = true →
      buildFiles true (.jarr fds) = .ok fs →
      sendRun ⟨true, some (.jobj [("type", .jstr "files"), ("data", .jarr fds)]),
                validate, none, true⟩ sig =
        .ok (.pyfiles fs, ⟨1, 1, 0⟩)) := by
  refine ⟨?_, ?_, ?_⟩
  · intro hv hnf
    simp [sendRun, hv, json_loads, getItem, List.lookup, hnf, pure, Except.pure,
          bind, Except.bind]
  · intro hv
    simp [sendRun, hv, json_loads, getItem, List.lookup, bind, Except.bind]
  · intro hv hb
    simp [sendRun, hv, json_loads, getItem, List.lookup, isFilesTag, hb,
          pure, Except.pure, bind, Except.bind]

/-- Witness for claim C7 (amended): an unrecognized `"value"` tag still
returns the data field; a missing tag raises; a `"files"` tag with an
empty listing returns an empty handle list. -/
theorem send_type_handling_witness :
    sendRun ⟨true, some (.jobj [("type", .jstr "value"), ("data", .jstr "x")]),
              fun _ => true, none, true⟩ .null =
      .ok (retOfJVal (.jstr "x"), ⟨1, 1, 0⟩) ∧
    sendRun ⟨true, some (.jobj [("data", .jstr "x")]), fun _ => true, none, true⟩ .null =
      .error .keyError ∧
    sendRun ⟨true, some (.jobj [("type", .jstr "files"), ("data", .jarr [])]),
              fun _ => true, none, true⟩ .null =
      .ok (.pyfiles [], ⟨1, 1, 0⟩) :=
  ⟨(send_type_handling (fun _ => true) (.jstr "value") (.jstr "x") [] [] .null).1 rfl rfl,
   (send_type_handling (fun _ => true) (.jstr "value") (.jstr "x") [] [] .null).2.1 rfl,
   (send_type_handling (fun _ => true) (.jstr "value") (.jstr "x") [] [] .null).2.2 rfl rfl⟩

/-- Claim C4: on the scripted two-chunk sequence with an accepting
validator and `is_binary` false, iterating the persistent-channel handle
sends the retrieval descriptor exactly once (and it is the `_saveFile`
descriptor), performs two receives, yields exactly `"a"` then `"b"`, and
ends after the second chunk; and at any point of any sequence, a message
the validator rejects ends the generator with no further chunk
yielded. -/
theorem file_iter_ws_chunks :
    (∀ fuel, fileIter chunkEnv wsTextFile fuel =
      ([Chunk.text (.jstr "a"), Chunk.text (.jstr "b")], .done, ⟨1, 2, 0⟩)) ∧
    fileSignal wsTextFile =
      .jobj [("func", .jstr "_saveFile"), ("args", .jarr []),
             ("kwargs", .jobj [("file-id", .jstr "id1"), ("binary", .jbool false)])] ∧
    ∀ (validate : RawText → Bool) (isB : Bool) (raw : RawText)
      (rest : List RawText),
      validate raw = false →
      iterPersistentLoop validate isB (raw :: rest) = ([], .done, 1) := by
  refine ⟨fun _ => rfl, rfl, ?_⟩
  intro validate isB raw rest h
  simp [iterPersistentLoop, h]

/-- Witness for claim C4: a rejecting validator ends the sequence at once
with nothing yielded. -/
theorem file_iter_ws_chunks_witness :
    iterPersistentLoop (fun _ => false) false [msgA] = ([], .done, 1) :=
  file_iter_ws_chunks.2.2 (fun _ => false) false msgA [] rfl

/-- Counterexample to claim C8: on the scripted sequence with string data
`"a"`/`"b"` and `is_binary = True`, `bytearray("a")` raises `TypeError`
(a `str` has no default encoding), so iteration yields no chunks at all
instead of the two converted chunks the claim asserts. -/
theorem file_iter_binary_string_raises :
    fileIter chunkEnv wsBinFile 0 = ([], .raised .typeError, ⟨1, 1, 0⟩) := rfl

/-- Claim C8 as amended: with `is_binary` true, each yielded chunk is
`bytearray` of the decoded data; when the scripted chunk data are values
`bytearray` accepts — e.g. arrays of byte ints, as the binary-requesting
descriptor calls for — the yielded chunks equal the binary conversions
element-wise; but for JSON string data such as `"a"`/`"b"` the conversion
raises `TypeError` and nothing is yielded. -/
theorem file_iter_binary_conversion (validate : RawText → Bool) (d1 d2 : JVal)
    (b1 b2 : List Nat) (f : FileH) (fuel : Nat)
    (hw : f.hasWs = true) (hb : f.isBinary = true)
    (hv : ∀ r, validate r = true)
    (h1 : bytearrayOf d1 = .ok b1) (h2 : bytearrayOf d2 = .ok b2) :
    fileIter ⟨[some (.jobj [("data", d1), ("end", .jbool false)]),
               some (.jobj [("data", d2), ("end", .jbool true)])], validate, none⟩
      f fuel =
      ([Chunk.bin b1, Chunk.bin b2], .done, ⟨1, 2, 0⟩) := by
  simp [fileIter, hw, fileIterWs, iterPersistentLoop, hv, chunkOf, endOf,
        json_loads, getItem, List.lookup, hb, h1, h2, pyEqTrue, bind,
        Except.bind, Except.map]

/-- Witness for claim C8 (amended): byte-array chunk data `[97]`, `[98]`
convert and are yielded as the two binary chunks. -/
theorem file_iter_binary_conversion_witness :
    fileIter ⟨[some (.jobj [("data", .jarr [.jnum 97]), ("end", .jbool false)]),
               some (.jobj [("data", .jarr [.jnum 98]), ("end", .jbool true)])],
              fun _ => true, none⟩ wsBinFile 0 =
      ([Chunk.bin [97], Chunk.bin [98]], .done, ⟨1, 2, 0⟩) :=
  file_iter_binary_conversion (fun _ => true) (.jarr [.jnum 97]) (.jarr [.jnum 98])
    [97] [98] wsBinFile 0 rfl rfl (fun _ => rfl) rfl rfl

/-- Helper for claim C10: with the single evaluator text's `end` flag not
`True`, every unfolding of the direct-mode loop yields the same chunk
once per iteration and never reaches the terminating break. -/
theorem directLoop_spin (out : RawText) (isB : Bool) (c : Chunk) (e : JVal)
    (hc : chunkOf isB out = .ok c) (he : endOf out = .ok e)
    (hf : pyEqTrue e = false) :
    ∀ n, directLoop out isB n = (List.replicate n c, .fuelOut) := by
  intro n
  induction n with
  | zero => simp [directLoop]
  | succ m ih => simp [directLoop, hc, he, hf, ih, List.replicate_succ]

/-- Claim C10: iterating a channel-less `File` handle calls the embedded
evaluator exactly once no matter how far iteration is driven; when the
single decoded payload's `end` flag equals `True`, exactly one chunk is
yielded and the generator ends; when it does not, every loop turn
re-parses the same returned text and yields the same chunk again, never
fetching new data and never terminating. -/
theorem file_iter_direct_spin (env : FileEnv) (f : FileH) (c : Chunk) (e : JVal)
    (hws : f.hasWs = false)
    (hc : chunkOf f.isBinary env.evalOut = .ok c)
    (he : endOf env.evalOut = .ok e) :
    (∀ fuel, (fileIter env f fuel).2.2 = ⟨0, 0, 1⟩) ∧
    (pyEqTrue e = true → ∀ fuel,
      fileIter env f (fuel + 1) = ([c], .done, ⟨0, 0, 1⟩)) ∧
    (pyEqTrue e = false → ∀ fuel,
      (fileIter env f fuel).1 = List.replicate fuel c ∧
      (fileIter env f fuel).2.1 = .fuelOut) := by
  refine ⟨?_, ?_, ?_⟩
  · intro fuel
    simp [fileIter, hws, fileIterDirect]
  · intro ht fuel
    simp [fileIter, hws, fileIterDirect, directLoop, hc, he, ht]
  · intro hf fuel
    simp [fileIter, hws, fileIterDirect, directLoop_spin env.evalOut f.isBinary c e hc he hf fuel]

/-- Witness for claim C10: a non-ending single payload spins — three units
of fuel yield the same chunk three times with one evaluator call and no
termination. -/
theorem file_iter_direct_spin_witness :
    (fileIter directSpinEnv directFile 3).1 =
      List.replicate 3 (Chunk.text (.jstr "x")) ∧
    (fileIter directSpinEnv directFile 3).2.1 = .fuelOut ∧
    (fileIter directSpinEnv directFile 7).2.2 = ⟨0, 0, 1⟩ :=
  ⟨((file_iter_direct_spin directSpinEnv directFile (Chunk.text (.jstr "x"))
      (.jbool false) rfl rfl rfl).2.2 rfl 3).1,
   ((file_iter_direct_spin directSpinEnv directFile (Chunk.text (.jstr "x"))
      (.jbool false) rfl rfl rfl).2.2 rfl 3).2,
   (file_iter_direct_spin directSpinEnv directFile (Chunk.text (.jstr "x"))
      (.jbool false) rfl rfl rfl).1 7⟩
